import Mathlib

/-!
Shallow embedding of the club-dashboard application (src/test.py).

Modelling conventions:
* Timestamps produced by `datetime.now().isoformat()` and dates produced by
  `date.isoformat()` are stored by the program as ISO-format TEXT; such
  strings compare lexicographically in the same order as the instants they
  denote, so they are modelled as natural numbers in the digit encoding
  yyyymmddHHMMSS (timestamps) and yyyymmdd (dates).  With this encoding the
  SQL `ORDER BY` comparisons and the pandas date comparisons on those
  columns coincide with `≤` on `Nat`, `pd.to_datetime(..).dt.date` is
  division by 1000000, and `dt.to_period("M")` on a date is division by 100.
* A SQLite database file is a `Disk`: three tables, each either absent
  (`none`) or present with its list of rows.  `init_db` models the three
  `CREATE TABLE IF NOT EXISTS` statements.
* The data-access functions operate on a `DB`, the contents of a disk on
  which all three tables exist; rows are kept in insertion order and
  `INSERT` appends.  `AUTOINCREMENT` ids are modelled by per-table next-id
  counters.
* `SELECT .. ORDER BY ..` is modelled by `List.insertionSort` with the
  corresponding key comparison (any sort consistent with the key is a
  faithful model of the query).
* Python `str.strip()` is `pyStrip`, removing the Python whitespace
  characters from both ends; Python truthiness `not s` on a string is
  `s = ""`.
-/

namespace ClubDashboard

/-- Row of the `announcements` table
(`id, title TEXT NOT NULL, content TEXT NOT NULL, date_created TEXT NOT NULL`). -/
structure Announcement where
  id : Nat
  title : String
  content : String
  date_created : Nat
deriving DecidableEq, Repr

/-- Row of the `events` table
(`id, name TEXT NOT NULL, description TEXT, date DATE NOT NULL, time TEXT,
location TEXT, created_at TEXT NOT NULL`). -/
structure Event where
  id : Nat
  name : String
  description : String
  date : Nat
  time : String
  location : String
  created_at : Nat
deriving DecidableEq, Repr

/-- Row of the `members` table (`id, name TEXT NOT NULL, role TEXT, joined_date TEXT`). -/
structure Member where
  id : Nat
  name : String
  role : String
  joined_date : Nat
deriving DecidableEq, Repr

/-- The database file: each of the three tables is either absent (`none`)
or present with its rows. -/
structure Disk where
  annTab : Option (List Announcement)
  evTab : Option (List Event)
  memTab : Option (List Member)
deriving DecidableEq, Repr

/-- `CREATE TABLE IF NOT EXISTS`: creates the table empty only when it is
absent, leaves a present table untouched. -/
def createTableIfNotExists {α : Type} (t : Option (List α)) : Option (List α) :=
  match t with
  | none => some []
  | some rows => some rows

/-- `init_db` from src/test.py: runs `CREATE TABLE IF NOT EXISTS` for the
announcements, events and members tables. -/
def init_db (d : Disk) : Disk :=
  { annTab := createTableIfNotExists d.annTab
    evTab := createTableIfNotExists d.evTab
    memTab := createTableIfNotExists d.memTab }

/-- Contents of the database once all three tables exist, together with the
`AUTOINCREMENT` counters. -/
structure DB where
  announcements : List Announcement
  events : List Event
  members : List Member
  annNextId : Nat
  evNextId : Nat
  memNextId : Nat
deriving DecidableEq, Repr

/-- `fetch_announcements`: `SELECT * FROM announcements ORDER BY date_created DESC`. -/
def fetch_announcements (db : DB) : List Announcement :=
  List.insertionSort (fun a b => b.date_created ≤ a.date_created) db.announcements

/-- `add_announcement(title, content)`: inserts one row with the current
time `now` as `date_created`. -/
def add_announcement (db : DB) (title content : String) (now : Nat) : DB :=
  { db with
    announcements := db.announcements ++
      [{ id := db.annNextId, title := title, content := content, date_created := now }]
    annNextId := db.annNextId + 1 }

/-- `fetch_events`: `SELECT * FROM events ORDER BY date ASC`. -/
def fetch_events (db : DB) : List Event :=
  List.insertionSort (fun a b => a.date ≤ b.date) db.events

/-- `add_event(name, description, date, time, location)`: inserts one row
with the current time `now` as `created_at`. -/
def add_event (db : DB) (name description : String) (date : Nat)
    (time location : String) (now : Nat) : DB :=
  { db with
    events := db.events ++
      [{ id := db.evNextId, name := name, description := description, date := date,
         time := time, location := location, created_at := now }]
    evNextId := db.evNextId + 1 }

/-- `fetch_members`: `SELECT * FROM members ORDER BY joined_date DESC`. -/
def fetch_members (db : DB) : List Member :=
  List.insertionSort (fun a b => b.joined_date ≤ a.joined_date) db.members

/-- `add_member(name, role, joined_date)`: inserts one row. -/
def add_member (db : DB) (name role : String) (joined_date : Nat) : DB :=
  { db with
    members := db.members ++
      [{ id := db.memNextId, name := name, role := role, joined_date := joined_date }]
    memNextId := db.memNextId + 1 }

/-- A data-access read as a call on the store: it returns the query result
and the store it leaves behind (a `SELECT` does not modify the store). -/
def fetch_announcements_call (db : DB) : List Announcement × DB :=
  (fetch_announcements db, db)

/-- `fetch_events` as a call on the store. -/
def fetch_events_call (db : DB) : List Event × DB :=
  (fetch_events db, db)

/-- `fetch_members` as a call on the store. -/
def fetch_members_call (db : DB) : List Member × DB :=
  (fetch_members db, db)

/-- The characters removed by Python `str.strip()`: exactly the code
points with `str.isspace()` true, namely U+0009..U+000D, U+001C..U+001F,
U+0020, U+0085, U+00A0, U+1680, U+2000..U+200A, U+2028, U+2029, U+202F,
U+205F and U+3000. -/
def isPySpace (c : Char) : Bool :=
  let n := c.toNat
  (9 ≤ n && n ≤ 13) || (28 ≤ n && n ≤ 31) || n = 32
  || n = 133 || n = 160 || n = 5760
  || (8192 ≤ n && n ≤ 8202)
  || n = 8232 || n = 8233 || n = 8239 || n = 8287 || n = 12288

/-- Python `str.strip()` on the character list: drop whitespace from both ends. -/
def pyStripList (l : List Char) : List Char :=
  ((l.dropWhile isPySpace).reverse.dropWhile isPySpace).reverse

/-- Python `str.strip()`. -/
def pyStrip (s : String) : String :=
  String.mk (pyStripList s.data)

/-- Whether a character list does not start with a Python whitespace
character. -/
def noLeadSpace : List Char → Bool
  | [] => true
  | c :: _ => !isPySpace c

/-- Whether a string has no leading and no trailing Python whitespace. -/
def strippedStr (s : String) : Bool :=
  noLeadSpace s.data && noLeadSpace s.data.reverse

/-- Outcome of a form submission: `st.warning(..)` without a write, or
`st.success(..)` after the insert. -/
inductive FormMsg where
  | warning
  | success
deriving DecidableEq, Repr

/-- The submission branch of `page_announcements`: an empty (after strip)
title or content produces a warning and no write; otherwise the stripped
title and content are inserted. -/
def page_announcements_submit (db : DB) (title content : String) (now : Nat) :
    DB × FormMsg :=
  if pyStrip title = "" ∨ pyStrip content = "" then
    (db, FormMsg.warning)
  else
    (add_announcement db (pyStrip title) (pyStrip content) now, FormMsg.success)

/-- The "upcoming" partition of `page_events`: `df[df['date'] >= today]`
on the fetched events. -/
def page_events_upcoming (db : DB) (today : Nat) : List Event :=
  (fetch_events db).filter (fun e => today ≤ e.date)

/-- The "past" partition of `page_events`: `df[df['date'] < today]`
on the fetched events. -/
def page_events_past (db : DB) (today : Nat) : List Event :=
  (fetch_events db).filter (fun e => e.date < today)

/-- The submission branch of `page_events`: an empty (after strip) name
produces a warning and no write; otherwise the stripped fields are
inserted (the time widget value is passed through as a formatted string). -/
def page_events_submit (db : DB) (name description : String) (date : Nat)
    (time location : String) (now : Nat) : DB × FormMsg :=
  if pyStrip name = "" then
    (db, FormMsg.warning)
  else
    (add_event db (pyStrip name) (pyStrip description) date time (pyStrip location) now,
     FormMsg.success)

/-- The submission branch of `page_members`: an empty (after strip) name
produces a warning and no write; otherwise the stripped name and role are
inserted. -/
def page_members_submit (db : DB) (name role : String) (joined_date : Nat) :
    DB × FormMsg :=
  if pyStrip name = "" then
    (db, FormMsg.warning)
  else
    (add_member db (pyStrip name) (pyStrip role) joined_date, FormMsg.success)

/-- Result of one analytics pipeline: a chart over its aggregated data, or
the placeholder message shown when the source table is empty. -/
inductive Render (α : Type) where
  | chart (data : α)
  | placeholder
deriving DecidableEq, Repr

/-- Calendar day of a yyyymmddHHMMSS timestamp
(`pd.to_datetime(..).dt.date`). -/
def dayOf (t : Nat) : Nat := t / 1000000

/-- Calendar month of a yyyymmdd date (`dt.to_period("M")`). -/
def monthOf (d : Nat) : Nat := d / 100

/-- `groupby(key).size()` over a key column: the distinct keys in ascending
order, each with its number of occurrences. -/
def groupCountsAsc (keys : List Nat) : List (Nat × Nat) :=
  (List.insertionSort (fun a b => a ≤ b) keys.eraseDups).map
    (fun k => (k, keys.count k))

/-- The announcements-per-day pipeline of `page_analytics`: placeholder on
an empty table, otherwise a bar chart of counts grouped by calendar day. -/
def analytics_announcements (db : DB) : Render (List (Nat × Nat)) :=
  let ann := fetch_announcements db
  if ann.isEmpty then Render.placeholder
  else Render.chart (groupCountsAsc (ann.map (fun a => dayOf a.date_created)))

/-- The events-per-month pipeline of `page_analytics`: placeholder on an
empty table, otherwise a line chart of counts grouped by calendar month. -/
def analytics_events (db : DB) : Render (List (Nat × Nat)) :=
  let ev := fetch_events db
  if ev.isEmpty then Render.placeholder
  else Render.chart (groupCountsAsc (ev.map (fun e => monthOf e.date)))

/-- `value_counts()` on the role column: each distinct role with its count,
sorted by count descending. -/
def roleValueCounts (mem : List Member) : List (String × Nat) :=
  List.insertionSort (fun a b => b.2 ≤ a.2)
    ((mem.map (fun m => m.role)).eraseDups.map
      (fun r => (r, (mem.map (fun m => m.role)).count r)))

/-- The member-roles pipeline of `page_analytics`: placeholder on an empty
table, otherwise a pie chart of the role counts. -/
def analytics_members (db : DB) : Render (List (String × Nat)) :=
  let mem := fetch_members db
  if mem.isEmpty then Render.placeholder
  else Render.chart (roleValueCounts mem)

/-- The role-count aggregate read off the members analytics data: the
number of fetched members holding the given role. -/
def roleCount (db : DB) (r : String) : Nat :=
  ((fetch_members db).map (fun m => m.role)).count r

/-- A concrete store used to instantiate theorems. -/
def sampleDB : DB :=
  { announcements := [{ id := 1, title := "t", content := "c", date_created := 20260101090000 }]
    events := [{ id := 1, name := "e", description := "", date := 20260105, time := "10:00",
                 location := "", created_at := 20260101090000 }]
    members := [{ id := 1, name := "Ann", role := "President", joined_date := 20260101 }]
    annNextId := 2
    evNextId := 2
    memNextId := 2 }

/-- An insertion sort is empty exactly when its input is empty. -/
theorem insertionSort_eq_nil_iff {α : Type} (r : α → α → Prop) [DecidableRel r]
    (l : List α) : List.insertionSort r l = [] ↔ l = [] := by
  constructor
  · intro h
    have p := List.perm_insertionSort r l
    rw [h] at p
    exact p.symm.eq_nil
  · intro h
    subst h
    rfl

/-- C1: storage initialization is idempotent and ensures the three tables
exist: after `init_db` every table is present; running `init_db` again
changes nothing; a table already present keeps exactly its rows; an absent
table is created empty. -/
theorem init_db_idempotent_creates_if_absent (d : Disk) :
    ((init_db d).annTab.isSome ∧ (init_db d).evTab.isSome ∧ (init_db d).memTab.isSome)
    ∧ init_db (init_db d) = init_db d
    ∧ (∀ rows, d.annTab = some rows → (init_db d).annTab = some rows)
    ∧ (∀ rows, d.evTab = some rows → (init_db d).evTab = some rows)
    ∧ (∀ rows, d.memTab = some rows → (init_db d).memTab = some rows)
    ∧ (d.annTab = none → (init_db d).annTab = some [])
    ∧ (d.evTab = none → (init_db d).evTab = some [])
    ∧ (d.memTab = none → (init_db d).memTab = some []) := by
  obtain ⟨a, e, m⟩ := d
  cases a <;> cases e <;> cases m <;>
    simp [init_db, createTableIfNotExists]

/-- C1 witness: on a disk where the announcements table holds one row and
the other two tables are absent, initialization keeps the row and creates
the missing tables. -/
theorem init_db_idempotent_creates_if_absent_witness :
    (init_db { annTab := some [{ id := 1, title := "t", content := "c",
                                 date_created := 20260101090000 }],
               evTab := none, memTab := none }).annTab
      = some [{ id := 1, title := "t", content := "c", date_created := 20260101090000 }]
    ∧ (init_db { annTab := some [{ id := 1, title := "t", content := "c",
                                   date_created := 20260101090000 }],
                 evTab := none, memTab := none }).evTab = some [] :=
  ⟨(init_db_idempotent_creates_if_absent _).2.2.1 _ rfl,
   (init_db_idempotent_creates_if_absent _).2.2.2.2.2.2.1 rfl⟩

/-- C3: submitting the announcement form with a title that strips to the
empty string (empty or whitespace-only) performs no write for any content:
the store is returned unchanged together with a warning. -/
theorem announcement_empty_title_no_write (db : DB) (title content : String)
    (now : Nat) (h : pyStrip title = "") :
    page_announcements_submit db title content now = (db, FormMsg.warning) := by
  simp [page_announcements_submit, h]

/-- C3 witness: a whitespace-only title with non-empty content leaves the
sample store unchanged and yields a warning. -/
theorem announcement_empty_title_no_write_witness :
    page_announcements_submit sampleDB "   " "hello" 20260102090000
      = (sampleDB, FormMsg.warning) :=
  announcement_empty_title_no_write sampleDB "   " "hello" 20260102090000 (by decide)

/-- C5: each of the three write functions appends exactly one row at the
end of its own table and leaves the other two tables (hence every
previously existing row of all three tables) unchanged. -/
theorem writes_append_one_row_frame (db : DB) (t c : String) (now : Nat)
    (n d : String) (dt : Nat) (tm loc : String) (cn : Nat)
    (mn mr : String) (jd : Nat) :
    (∃ a, (add_announcement db t c now).announcements = db.announcements ++ [a])
    ∧ (add_announcement db t c now).events = db.events
    ∧ (add_announcement db t c now).members = db.members
    ∧ (∃ e, (add_event db n d dt tm loc cn).events = db.events ++ [e])
    ∧ (add_event db n d dt tm loc cn).announcements = db.announcements
    ∧ (add_event db n d dt tm loc cn).members = db.members
    ∧ (∃ m, (add_member db mn mr jd).members = db.members ++ [m])
    ∧ (add_member db mn mr jd).announcements = db.announcements
    ∧ (add_member db mn mr jd).events = db.events :=
  ⟨⟨_, rfl⟩, rfl, rfl, ⟨_, rfl⟩, rfl, rfl, ⟨_, rfl⟩, rfl, rfl⟩

/-- C9: each read, seen as a call on the store, is deterministic: a second
invocation on the state left by the first returns the same rows in the
same order (hence the same row count), and the store after both calls is
the initial store (reads perform no write). -/
theorem reads_deterministic (db : DB) :
    ((fetch_announcements_call ((fetch_announcements_call db).2)).1
        = (fetch_announcements_call db).1
      ∧ (fetch_announcements_call ((fetch_announcements_call db).2)).2 = db)
    ∧ ((fetch_events_call ((fetch_events_call db).2)).1 = (fetch_events_call db).1
      ∧ (fetch_events_call ((fetch_events_call db).2)).2 = db)
    ∧ ((fetch_members_call ((fetch_members_call db).2)).1 = (fetch_members_call db).1
      ∧ (fetch_members_call ((fetch_members_call db).2)).2 = db) :=
  ⟨⟨rfl, rfl⟩, ⟨rfl, rfl⟩, ⟨rfl, rfl⟩⟩

/-- C2: the Events page puts an event in the "past" partition exactly when
its date is strictly before today and in the "upcoming" partition exactly
when its date is at least today; the partitions are disjoint and together
they are a permutation of (all rows of) the events table. -/
theorem page_events_partition (db : DB) (today : Nat) :
    (∀ e, e ∈ page_events_past db today ↔ e ∈ db.events ∧ e.date < today)
    ∧ (∀ e, e ∈ page_events_upcoming db today ↔ e ∈ db.events ∧ today ≤ e.date)
    ∧ (∀ e, ¬ (e ∈ page_events_past db today ∧ e ∈ page_events_upcoming db today))
    ∧ (page_events_past db today ++ page_events_upcoming db today).Perm db.events := by
  have hperm := List.perm_insertionSort (fun a b : Event => a.date ≤ b.date) db.events
  refine ⟨?_, ?_, ?_, ?_⟩
  · intro e
    simp [page_events_past, fetch_events, List.mem_filter, hperm.mem_iff]
  · intro e
    simp [page_events_upcoming, fetch_events, List.mem_filter, hperm.mem_iff]
  · rintro e ⟨h1, h2⟩
    simp only [page_events_past, List.mem_filter, decide_eq_true_eq] at h1
    simp only [page_events_upcoming, List.mem_filter, decide_eq_true_eq] at h2
    exact absurd h2.2 (Nat.not_le.mpr h1.2)
  · have hco : (fun e : Event => decide (today ≤ e.date))
        = (fun e : Event => !decide (e.date < today)) := by
      funext e
      rw [← decide_not]
      exact decide_eq_decide.mpr (Nat.not_lt).symm
    have h1 : page_events_past db today
        = (fetch_events db).filter (fun e => decide (e.date < today)) := rfl
    have h2 : page_events_upcoming db today
        = (fetch_events db).filter (fun e => !decide (e.date < today)) := by
      simp only [page_events_upcoming, hco]
    rw [h1, h2]
    exact (List.filter_append_perm _ _).trans hperm

/-- C2 witness: with the sample store and today = 20260103, the event dated
20260105 lands in the upcoming partition, and the two partitions together
are a permutation of the events table. -/
theorem page_events_partition_witness :
    ({ id := 1, name := "e", description := "", date := 20260105, time := "10:00",
       location := "", created_at := 20260101090000 } : Event)
      ∈ page_events_upcoming sampleDB 20260103
    ∧ (page_events_past sampleDB 20260103 ++ page_events_upcoming sampleDB 20260103).Perm
        sampleDB.events :=
  ⟨((page_events_partition sampleDB 20260103).2.1 _).mpr ⟨by decide, by decide⟩,
   (page_events_partition sampleDB 20260103).2.2.2⟩

/-- C6: reading the announcements table returns a permutation of all its
rows, sorted by creation timestamp descending (newest first). -/
theorem fetch_announcements_newest_first (db : DB) :
    (fetch_announcements db).Perm db.announcements
    ∧ List.Sorted (fun a b => b.date_created ≤ a.date_created)
        (fetch_announcements db) := by
  constructor
  · exact List.perm_insertionSort _ _
  · haveI : IsTotal Announcement (fun a b => b.date_created ≤ a.date_created) :=
      ⟨fun a b => Nat.le_total b.date_created a.date_created⟩
    haveI : IsTrans Announcement (fun a b => b.date_created ≤ a.date_created) :=
      ⟨fun _ _ _ hab hbc => Nat.le_trans hbc hab⟩
    exact List.sorted_insertionSort _ _

/-- C7: each analytics pipeline yields the placeholder exactly when its
source table is empty, and yields a chart whenever the table is non-empty. -/
theorem analytics_placeholder_iff_empty (db : DB) :
    (analytics_announcements db = Render.placeholder ↔ db.announcements = [])
    ∧ (db.announcements ≠ [] → ∃ dta, analytics_announcements db = Render.chart dta)
    ∧ (analytics_events db = Render.placeholder ↔ db.events = [])
    ∧ (db.events ≠ [] → ∃ dta, analytics_events db = Render.chart dta)
    ∧ (analytics_members db = Render.placeholder ↔ db.members = [])
    ∧ (db.members ≠ [] → ∃ dta, analytics_members db = Render.chart dta) := by
  have hna : fetch_announcements db = [] ↔ db.announcements = [] :=
    insertionSort_eq_nil_iff _ _
  have hne : fetch_events db = [] ↔ db.events = [] :=
    insertionSort_eq_nil_iff _ _
  have hnm : fetch_members db = [] ↔ db.members = [] :=
    insertionSort_eq_nil_iff _ _
  refine ⟨?_, ?_, ?_, ?_, ?_, ?_⟩
  · by_cases h : db.announcements = []
    · simp [analytics_announcements, List.isEmpty_iff, hna.mpr h, h]
    · have hf : fetch_announcements db ≠ [] := fun hh => h (hna.mp hh)
      simp [analytics_announcements, List.isEmpty_iff, hf, h]
  · intro h
    have hf : fetch_announcements db ≠ [] := fun hh => h (hna.mp hh)
    refine ⟨groupCountsAsc ((fetch_announcements db).map (fun a => dayOf a.date_created)), ?_⟩
    simp [analytics_announcements, List.isEmpty_iff, hf]
  · by_cases h : db.events = []
    · simp [analytics_events, List.isEmpty_iff, hne.mpr h, h]
    · have hf : fetch_events db ≠ [] := fun hh => h (hne.mp hh)
      simp [analytics_events, List.isEmpty_iff, hf, h]
  · intro h
    have hf : fetch_events db ≠ [] := fun hh => h (hne.mp hh)
    refine ⟨groupCountsAsc ((fetch_events db).map (fun e => monthOf e.date)), ?_⟩
    simp [analytics_events, List.isEmpty_iff, hf]
  · by_cases h : db.members = []
    · simp [analytics_members, List.isEmpty_iff, hnm.mpr h, h]
    · have hf : fetch_members db ≠ [] := fun hh => h (hnm.mp hh)
      simp [analytics_members, List.isEmpty_iff, hf, h]
  · intro h
    have hf : fetch_members db ≠ [] := fun hh => h (hnm.mp hh)
    refine ⟨roleValueCounts (fetch_members db), ?_⟩
    simp [analytics_members, List.isEmpty_iff, hf]

/-- C7 witness: on an empty store every pipeline shows the placeholder
(announcements shown here), and on the sample store the non-empty members
table yields a chart. -/
theorem analytics_placeholder_iff_empty_witness :
    analytics_announcements { announcements := [], events := [], members := [],
                              annNextId := 1, evNextId := 1, memNextId := 1 }
      = Render.placeholder
    ∧ ∃ dta, analytics_members sampleDB = Render.chart dta :=
  ⟨(analytics_placeholder_iff_empty _).1.mpr rfl,
   (analytics_placeholder_iff_empty sampleDB).2.2.2.2.2 (by decide)⟩

/-- C8: adding the member "Alex" with role "Treasurer" makes that pair
appear among the rows returned by the members read and increases the
"Treasurer" role-count aggregate by exactly one. -/
theorem add_member_alex_treasurer (db : DB) (jd : Nat) :
    (∃ m, m ∈ fetch_members (add_member db "Alex" "Treasurer" jd)
        ∧ m.name = "Alex" ∧ m.role = "Treasurer")
    ∧ roleCount (add_member db "Alex" "Treasurer" jd) "Treasurer"
        = roleCount db "Treasurer" + 1 := by
  constructor
  · refine ⟨{ id := db.memNextId, name := "Alex", role := "Treasurer",
              joined_date := jd }, ?_, rfl, rfl⟩
    have hperm := List.perm_insertionSort
      (fun a b : Member => b.joined_date ≤ a.joined_date)
      (add_member db "Alex" "Treasurer" jd).members
    refine hperm.mem_iff.mpr ?_
    simp [add_member]
  · simp only [roleCount, fetch_members]
    rw [(List.Perm.map (fun m : Member => m.role)
          (List.perm_insertionSort (fun a b : Member => b.joined_date ≤ a.joined_date)
            (add_member db "Alex" "Treasurer" jd).members)).count_eq,
        (List.Perm.map (fun m : Member => m.role)
          (List.perm_insertionSort (fun a b : Member => b.joined_date ≤ a.joined_date)
            db.members)).count_eq]
    simp [add_member]

/-- Dropping leading whitespace leaves no leading whitespace. -/
theorem noLeadSpace_dropWhile (l : List Char) :
    noLeadSpace (l.dropWhile isPySpace) = true := by
  induction l with
  | nil => rfl
  | cons c t ih =>
    by_cases h : isPySpace c = true
    · rw [List.dropWhile_cons, if_pos h]
      exact ih
    · rw [List.dropWhile_cons, if_neg h]
      simpa [noLeadSpace] using h

/-- A non-empty list keeps its head across an append on the right. -/
theorem noLeadSpace_append (l1 l2 : List Char) (h : l1 ≠ []) :
    noLeadSpace (l1 ++ l2) = noLeadSpace l1 := by
  cases l1 with
  | nil => exact absurd rfl h
  | cons c t => rfl

/-- Dropping leading whitespace preserves the absence of trailing
whitespace (stated via the reversed list). -/
theorem noLeadSpace_reverse_dropWhile (l : List Char)
    (h : noLeadSpace l.reverse = true) :
    noLeadSpace (l.dropWhile isPySpace).reverse = true := by
  induction l with
  | nil => exact h
  | cons c t ih =>
    by_cases hc : isPySpace c = true
    · rw [List.dropWhile_cons, if_pos hc]
      apply ih
      rcases hr : t.reverse with _ | ⟨d, r⟩
      · rw [List.reverse_cons, hr] at h
        simp [noLeadSpace, hc] at h
      · rw [List.reverse_cons, hr] at h
        simpa [noLeadSpace] using h
    · rw [List.dropWhile_cons, if_neg hc]
      exact h

/-- The result of Python `str.strip()` has no leading and no trailing
whitespace. -/
theorem pyStrip_stripped (s : String) : strippedStr (pyStrip s) = true := by
  have h2 : noLeadSpace (pyStripList s.data).reverse = true := by
    show noLeadSpace
      (((s.data.dropWhile isPySpace).reverse.dropWhile isPySpace).reverse.reverse) = true
    rw [List.reverse_reverse]
    exact noLeadSpace_dropWhile _
  have h1 : noLeadSpace (pyStripList s.data) = true := by
    show noLeadSpace
      (((s.data.dropWhile isPySpace).reverse.dropWhile isPySpace).reverse) = true
    apply noLeadSpace_reverse_dropWhile
    rw [List.reverse_reverse]
    exact noLeadSpace_dropWhile _
  show (noLeadSpace (pyStripList s.data) && noLeadSpace (pyStripList s.data).reverse) = true
  rw [h1, h2]
  rfl

/-- C4 counterexample: the title " " and the content "x" are both
non-empty strings, yet the submission takes the warning branch: the row
count stays equal to its old value instead of increasing by one. -/
theorem announcement_submit_count_counterexample :
    (" " : String) ≠ ""
    ∧ ("x" : String) ≠ ""
    ∧ (page_announcements_submit sampleDB " " "x" 20260102090000).1.announcements.length
        = sampleDB.announcements.length
    ∧ (page_announcements_submit sampleDB " " "x" 20260102090000).1.announcements.length
        ≠ sampleDB.announcements.length + 1 :=
  ⟨by decide, by decide, by decide, by decide⟩

/-- C4 amended: for every database state, every title and content that are
non-blank (non-empty after stripping), and any submission time `now` at
least the timestamp `t0` taken immediately before the submission,
submitting the announcement form increases the announcements row count by
exactly one, and the inserted row has creation timestamp ≥ `t0`. -/
theorem announcement_submit_increases_count (db : DB) (title content : String)
    (now t0 : Nat) (ht : pyStrip title ≠ "") (hc : pyStrip content ≠ "")
    (hclock : t0 ≤ now) :
    (page_announcements_submit db title content now).1.announcements.length
      = db.announcements.length + 1
    ∧ ∃ a, (page_announcements_submit db title content now).1.announcements
          = db.announcements ++ [a] ∧ t0 ≤ a.date_created := by
  have hcond : ¬ (pyStrip title = "" ∨ pyStrip content = "") := not_or.mpr ⟨ht, hc⟩
  simp only [page_announcements_submit, if_neg hcond]
  constructor
  · simp [add_announcement]
  · exact ⟨_, rfl, hclock⟩

/-- C4 amended witness: a concrete submission on the sample store with a
non-blank title and content increases the row count from 1 to 2. -/
theorem announcement_submit_increases_count_witness :
    (page_announcements_submit sampleDB " hi " "c" 20260102090000).1.announcements.length
      = sampleDB.announcements.length + 1 :=
  (announcement_submit_increases_count sampleDB " hi " "c" 20260102090000
    20260101090000 (by decide) (by decide) (by decide)).1

/-- C10: whenever a form submission succeeds (performs its insert), the
inserted announcement title and content, event name, and member name are
the stripped field values: non-empty, with no leading or trailing
whitespace. -/
theorem forms_store_stripped_nonempty_fields (db : DB)
    (title content : String) (now : Nat)
    (en ed : String) (dt : Nat) (tm loc : String) (cn : Nat)
    (mn mr : String) (jd : Nat) (db1 db2 db3 : DB)
    (h1 : page_announcements_submit db title content now = (db1, FormMsg.success))
    (h2 : page_events_submit db en ed dt tm loc cn = (db2, FormMsg.success))
    (h3 : page_members_submit db mn mr jd = (db3, FormMsg.success)) :
    (∃ a, db1.announcements = db.announcements ++ [a]
        ∧ a.title ≠ "" ∧ strippedStr a.title = true
        ∧ a.content ≠ "" ∧ strippedStr a.content = true)
    ∧ (∃ e, db2.events = db.events ++ [e]
        ∧ e.name ≠ "" ∧ strippedStr e.name = true)
    ∧ (∃ m, db3.members = db.members ++ [m]
        ∧ m.name ≠ "" ∧ strippedStr m.name = true) := by
  refine ⟨?_, ?_, ?_⟩
  · by_cases hcond : pyStrip title = "" ∨ pyStrip content = ""
    · simp only [page_announcements_submit, if_pos hcond] at h1
      simp at h1
    · simp only [page_announcements_submit, if_neg hcond] at h1
      push_neg at hcond
      obtain ⟨ht, hc⟩ := hcond
      injection h1 with he _
      subst he
      exact ⟨{ id := db.annNextId, title := pyStrip title, content := pyStrip content,
               date_created := now },
        rfl, ht, pyStrip_stripped title, hc, pyStrip_stripped content⟩
  · by_cases hcond : pyStrip en = ""
    · simp only [page_events_submit, if_pos hcond] at h2
      simp at h2
    · simp only [page_events_submit, if_neg hcond] at h2
      injection h2 with he _
      subst he
      exact ⟨{ id := db.evNextId, name := pyStrip en, description := pyStrip ed,
               date := dt, time := tm, location := pyStrip loc, created_at := cn },
        rfl, hcond, pyStrip_stripped en⟩
  · by_cases hcond : pyStrip mn = ""
    · simp only [page_members_submit, if_pos hcond] at h3
      simp at h3
    · simp only [page_members_submit, if_neg hcond] at h3
      injection h3 with he _
      subst he
      exact ⟨{ id := db.memNextId, name := pyStrip mn, role := pyStrip mr,
               joined_date := jd },
        rfl, hcond, pyStrip_stripped mn⟩

/-- C10 witness: concrete successful submissions on the sample store; the
row inserted by the announcement form carries the stripped, non-empty
title and content. -/
theorem forms_store_stripped_nonempty_fields_witness :
    ∃ a, (add_announcement sampleDB "a" "b" 20260102090000).announcements
        = sampleDB.announcements ++ [a]
      ∧ a.title ≠ "" ∧ strippedStr a.title = true
      ∧ a.content ≠ "" ∧ strippedStr a.content = true :=
  (forms_store_stripped_nonempty_fields sampleDB " a " "b" 20260102090000
    " e " "" 20260110 "10:00" " loc " 20260102090000 " M " " r " 20260111
    (add_announcement sampleDB "a" "b" 20260102090000)
    (add_event sampleDB "e" "" 20260110 "10:00" "loc" 20260102090000)
    (add_member sampleDB "M" "r" 20260111)
    (by decide) (by decide) (by decide)).1

end ClubDashboard
